import Mathlib

/-!
# Clementine MPRIS 1 adapter (`src/core/mpris.cpp`)

A shallow embedding of the three D-Bus adapter objects of `mpris.cpp`
(`Mpris1Player`, `Mpris1TrackList` and the static metadata mapper
`Mpris1::GetMetadata`) together with the properties of their status tuple,
capability mask, metadata dictionary and signal relay.

The collaborators (`Player`, `PlaylistManager`, `Playlist`, `PlaylistSequence`,
`PlaylistItem`, `Song`, the engine) are seen through the accessors that
`mpris.cpp` calls; a value of the structures below is one snapshot of what those
accessors return.
-/

namespace Engine

/-- The enumeration `Engine::State` as far as `Mpris1Player::GetStatus` switches on it. -/
inductive State where
  | Empty
  | Idle
  | Playing
  | Paused
  deriving DecidableEq, Repr

end Engine

namespace PlaylistSequence

/-- The enumeration `PlaylistSequence::RepeatMode`.  The four named modes are the ones
`mpris.cpp` mentions; `Repeat_Other` stands for any further enumerator of the header. -/
inductive RepeatMode where
  | Repeat_Off
  | Repeat_Track
  | Repeat_Album
  | Repeat_Playlist
  | Repeat_Other (n : Nat)
  deriving DecidableEq, Repr

/-- The enumeration `PlaylistSequence::ShuffleMode`.  `Shuffle_Off` and `Shuffle_All` are
the ones `mpris.cpp` mentions; `Shuffle_Other` stands for any further enumerator. -/
inductive ShuffleMode where
  | Shuffle_Off
  | Shuffle_All
  | Shuffle_Other (n : Nat)
  deriving DecidableEq, Repr

end PlaylistSequence

/-- What `mpris.cpp` reads of a `PlaylistSequence`. -/
structure PlaylistSequence where
  repeat_mode : PlaylistSequence.RepeatMode
  shuffle_mode : PlaylistSequence.ShuffleMode
  deriving DecidableEq, Repr

namespace Song

/-- The enumeration `Song::FileType`; only `Type_Stream` is named in `mpris.cpp`,
`Type_Other` stands for every other file type. -/
inductive FileType where
  | Type_Stream
  | Type_Other (n : Nat)
  deriving DecidableEq, Repr

end Song

/-- The accessors of `Song` that `mpris.cpp` calls.  Integers are C++ `int`, the two
floating point fields (`bpm`, `rating`) are exact rationals, `PrettyTitle` is the value
returned by `Song::PrettyTitle()`. -/
structure Song where
  filename : String
  PrettyTitle : String
  artist : String
  album : String
  length : Int
  track : Int
  year : Int
  genre : String
  disc : Int
  comment : String
  bitrate : Int
  samplerate : Int
  bpm : ℚ
  composer : String
  art_manual : String
  art_automatic : String
  rating : ℚ
  filetype : Song.FileType
  deriving DecidableEq

/-- A `PlaylistItem` as seen through `options()` (a flag word) and `Metadata()`. -/
structure PlaylistItem where
  options : Nat
  Metadata : Song
  deriving DecidableEq

/-- The flag constants of `PlaylistItem::Option` that `mpris.cpp` tests.  Their numeric
values are declared in `playlistitem.h`, outside `mpris.cpp`, so they are parameters of
the embedding. -/
structure PlaylistItemFlags where
  PauseDisabled : Nat
  ContainsMultipleTracks : Nat
  deriving DecidableEq, Repr

/-- The active `Playlist` as seen through `rowCount()` (the number of `items`),
`current_index()`, `next_index()`, `previous_index()` and `current_item_options()`. -/
structure Playlist where
  items : List PlaylistItem
  current_index : Int
  next_index : Int
  previous_index : Int
  current_item_options : Nat
  deriving DecidableEq

/-- The row count, `Playlist::rowCount()`. -/
def Playlist.rowCount (pl : Playlist) : Int := pl.items.length

/-- What `mpris.cpp` reads of the `PlaylistManager`: `active()` and `sequence()`. -/
structure PlaylistManager where
  active : Playlist
  sequence : PlaylistSequence
  deriving DecidableEq

/-- What `mpris.cpp` reads of the `Player`: `GetState()`, `GetCurrentItem()` (a null
pointer is `none`) and `playlists()`. -/
structure Player where
  GetState : Engine.State
  GetCurrentItem : Option PlaylistItem
  playlists : PlaylistManager
  deriving DecidableEq

namespace DBusStatus

/-- The play states `DBusStatus::Mpris_*` stored in the `play` field. -/
inductive MprisPlayState where
  | Mpris_Playing
  | Mpris_Paused
  | Mpris_Stopped
  deriving DecidableEq, Repr

end DBusStatus

/-- The four-field structure `DBusStatus` returned by `GetStatus`. -/
structure DBusStatus where
  play : DBusStatus.MprisPlayState
  random : Int
  repeat_ : Int
  repeat_playlist : Int
  deriving DecidableEq, Repr

/-- A `QVariant` as stored by the `AddMetadata` overloads: a string, an `int` or a
floating point number (an exact rational here). -/
inductive QVariant where
  | str (s : String)
  | int (i : Int)
  | dbl (q : ℚ)
  deriving DecidableEq

/-- A `QVariantMap` (`QMap<QString, QVariant>`): at most one entry per key, keys compared
as case-sensitive strings.  The entries are kept in the order of first insertion. -/
structure QVariantMap where
  entries : List (String × QVariant)
  deriving DecidableEq

namespace QVariantMap

/-- The default-constructed, empty map. -/
def empty : QVariantMap := ⟨[]⟩

/-- Assignment into a list of entries: replace the entry of `key`, or add one. -/
def insertEntries : List (String × QVariant) → String → QVariant → List (String × QVariant)
  | [], key, v => [(key, v)]
  | (k, x) :: rest, key, v =>
      if k = key then (key, v) :: rest else (k, x) :: insertEntries rest key v

/-- Lookup in a list of entries. -/
def valueEntries : List (String × QVariant) → String → Option QVariant
  | [], _ => none
  | (k, x) :: rest, key => if k = key then some x else valueEntries rest key

/-- The assignment `map[key] = v`. -/
def insert (m : QVariantMap) (key : String) (v : QVariant) : QVariantMap :=
  ⟨insertEntries m.entries key v⟩

/-- The lookup `map.value(key)`, `none` when the key is absent. -/
def value (m : QVariantMap) (key : String) : Option QVariant :=
  valueEntries m.entries key

/-- The keys of the map, `map.keys()` up to order. -/
def keys (m : QVariantMap) : List String := m.entries.map Prod.fst

end QVariantMap

/-- The state of the `Mpris1Player` object: the player it observes and the cached
`last_metadata_`. -/
structure Mpris1Player where
  player_ : Player
  last_metadata_ : QVariantMap
  deriving DecidableEq

/-- The state of the `Mpris1TrackList` object: the player it observes. -/
structure Mpris1TrackList where
  player_ : Player
  deriving DecidableEq

/-- `Mpris1Player::GetStatus`. -/
def Mpris1Player.GetStatus (self : Mpris1Player) : DBusStatus :=
  let play : DBusStatus.MprisPlayState :=
    match self.player_.GetState with
    | .Empty => .Mpris_Stopped
    | .Idle => .Mpris_Stopped
    | .Playing => .Mpris_Playing
    | .Paused => .Mpris_Paused
  let playlists_ := self.player_.playlists
  let repeat_mode := playlists_.sequence.repeat_mode
  { play := play
    random := if playlists_.sequence.shuffle_mode = .Shuffle_Off then 0 else 1
    repeat_ := if repeat_mode = .Repeat_Track then 1 else 0
    repeat_playlist :=
      if repeat_mode = .Repeat_Album ∨ repeat_mode = .Repeat_Playlist ∨
          repeat_mode = .Repeat_Track then 1 else 0 }

/-- Modelled from the spec: the capability constant `CAN_GO_NEXT`, declared in a header
outside `mpris.cpp`.  The spec lists the capability bitset as CanGoNext,
CanGoPrevious, CanPause, CanPlay, CanSeek, CanProvideMetadata, CanHasTracklist; each
member is one bit, in that order. -/
def CAN_GO_NEXT : Nat := 1 <<< 0

/-- Modelled from the spec: the capability constant `CAN_GO_PREV`, second member of the bitset. -/
def CAN_GO_PREV : Nat := 1 <<< 1

/-- Modelled from the spec: the capability constant `CAN_PAUSE`, third member of the bitset. -/
def CAN_PAUSE : Nat := 1 <<< 2

/-- Modelled from the spec: the capability constant `CAN_PLAY`, fourth member of the bitset. -/
def CAN_PLAY : Nat := 1 <<< 3

/-- Modelled from the spec: the capability constant `CAN_SEEK`, fifth member of the bitset. -/
def CAN_SEEK : Nat := 1 <<< 4

/-- Modelled from the spec: the capability constant `CAN_PROVIDE_METADATA`, sixth member of
the bitset. -/
def CAN_PROVIDE_METADATA : Nat := 1 <<< 5

/-- Modelled from the spec: the capability constant `CAN_HAS_TRACKLIST`, seventh member of
the bitset. -/
def CAN_HAS_TRACKLIST : Nat := 1 <<< 6

/-- `Mpris1Player::GetCaps`.  A flag test `a & b` used as a condition is `a &&& b ≠ 0`. -/
def Mpris1Player.GetCaps (F : PlaylistItemFlags) (self : Mpris1Player) : Nat :=
  let caps := CAN_HAS_TRACKLIST
  let state := self.player_.GetState
  let current_item := self.player_.GetCurrentItem
  let playlists := self.player_.playlists
  let caps := if playlists.active.rowCount ≠ 0 then caps ||| CAN_PLAY else caps
  let caps :=
    match current_item with
    | some item =>
        let caps := caps ||| CAN_PROVIDE_METADATA
        let caps :=
          if state = .Playing ∧ ¬ (item.options &&& F.PauseDisabled ≠ 0) then
            caps ||| CAN_PAUSE
          else caps
        let caps :=
          if state ≠ .Empty ∧ item.Metadata.filetype ≠ .Type_Stream then
            caps ||| CAN_SEEK
          else caps
        caps
    | none => caps
  let caps :=
    if playlists.active.next_index ≠ -1 ∨
        playlists.active.current_item_options &&& F.ContainsMultipleTracks ≠ 0 then
      caps ||| CAN_GO_NEXT
    else caps
  let caps := if playlists.active.previous_index ≠ -1 then caps ||| CAN_GO_PREV else caps
  caps

/-- Modelled from the spec: the helper `AddMetadata` of `mpris_common.h`, whose body is
outside `mpris.cpp`.  It stores the value under the key, `(*map)[key] = metadata`.  Whether
the helper leaves some values out (an empty string, a zero) is decided in that header: the
test is the parameter `keep`. -/
def AddMetadata (keep : QVariant → Bool) (key : String) (metadata : QVariant)
    (map : QVariantMap) : QVariantMap :=
  if keep metadata then map.insert key metadata else map

/-- Modelled from the spec: the `AddMetadata` guard under which every value is stored
("empty string still counts as present"). -/
def keepAll : QVariant → Bool := fun _ => true

/-- A C++ `int` result reduced to 32-bit two's complement. -/
def wrapInt32 (x : Int) : Int := (x + 2 ^ 31) % 2 ^ 32 - 2 ^ 31

/-- The static mapper `Mpris1::GetMetadata(const Song&)`.  The product
`song.length() * 1000` is an `int` product, reduced to 32 bits.  The rating is an exact
rational and so is the product `song.rating() * 5`: the rounding of the single-precision
product to the nearest `float` is not modelled. -/
def Mpris1.GetMetadata (keep : QVariant → Bool) (song : Song) : QVariantMap :=
  let ret := QVariantMap.empty
  let ret := AddMetadata keep "location" (.str song.filename) ret
  let ret := AddMetadata keep "title" (.str song.PrettyTitle) ret
  let ret := AddMetadata keep "artist" (.str song.artist) ret
  let ret := AddMetadata keep "album" (.str song.album) ret
  let ret := AddMetadata keep "time" (.int song.length) ret
  let ret := AddMetadata keep "mtime" (.int (wrapInt32 (song.length * 1000))) ret
  let ret := AddMetadata keep "tracknumber" (.int song.track) ret
  let ret := AddMetadata keep "year" (.int song.year) ret
  let ret := AddMetadata keep "genre" (.str song.genre) ret
  let ret := AddMetadata keep "disc" (.int song.disc) ret
  let ret := AddMetadata keep "comment" (.str song.comment) ret
  let ret := AddMetadata keep "audio-bitrate" (.int song.bitrate) ret
  let ret := AddMetadata keep "audio-samplerate" (.int song.samplerate) ret
  let ret := AddMetadata keep "bpm" (.dbl song.bpm) ret
  let ret := AddMetadata keep "composer" (.str song.composer) ret
  let ret := AddMetadata keep "artUrl"
    (.str (if song.art_manual = "" then song.art_automatic else song.art_manual)) ret
  let ret :=
    if song.rating ≠ -1 then AddMetadata keep "rating" (.dbl (song.rating * 5)) ret else ret
  ret

/-- The signals the adapter objects emit on the bus, with their payloads. -/
inductive Signal where
  | TrackChange (metadata : QVariantMap)
  | StatusChange (status : DBusStatus)
  | CapsChange (caps : Nat)
  | TrackListChange (length : Int)
  deriving DecidableEq

/-- The slot `Mpris1Player::EngineStateChanged`: the emitted signals, in order. -/
def Mpris1Player.EngineStateChanged (F : PlaylistItemFlags) (self : Mpris1Player) :
    Mpris1Player × List Signal :=
  (self, [.StatusChange self.GetStatus, .CapsChange (self.GetCaps F)])

/-- The slot `Mpris1Player::CurrentSongChanged(song, art_uri)`: the new object state and
the emitted signals, in order. -/
def Mpris1Player.CurrentSongChanged (keep : QVariant → Bool) (F : PlaylistItemFlags)
    (song : Song) (art_uri : String) (self : Mpris1Player) : Mpris1Player × List Signal :=
  let self := { self with last_metadata_ := Mpris1.GetMetadata keep song }
  let self :=
    if art_uri ≠ "" then
      { self with last_metadata_ := AddMetadata keep "arturl" (.str art_uri) self.last_metadata_ }
    else self
  (self, [.TrackChange self.last_metadata_, .StatusChange self.GetStatus,
          .CapsChange (self.GetCaps F)])

/-- `Mpris1Player::GetMetadata()`. -/
def Mpris1Player.GetMetadata (self : Mpris1Player) : QVariantMap :=
  self.last_metadata_

/-- The calls the adapter forwards to the `Player` object. -/
inductive PlayerCall where
  | Pause
  | Stop
  | Previous
  | Play
  | Next
  | SetVolume (volume : Int)
  | Seek (pos : Int)
  | Mute
  | ShowOSD
  deriving DecidableEq, Repr

/-- `Mpris1Player::PositionSet(int pos)`: the object state afterwards and the calls made on
the player.  `pos/1000` is C++ integer division, which truncates toward zero. -/
def Mpris1Player.PositionSet (pos : Int) (self : Mpris1Player) :
    Mpris1Player × List PlayerCall :=
  (self, [.Seek (Int.tdiv pos 1000)])

/-- Modelled from the spec: the error kinds of the spec's taxonomy.  `mpris.cpp` declares
no error type and sends no error reply. -/
inductive MprisError where
  | InvalidIndex
  | NoCurrentTrack
  | TransportUnavailable
  deriving DecidableEq, Repr

/-- Modelled from the spec: `Playlist::removeRows(row, count)`, whose body is in
`playlist.cpp`, outside `mpris.cpp`.  Removing at an index inside the
playlist takes out exactly the rows `row .. row+count-1`; a request that reaches outside
the playlist leaves it unchanged.  The Boolean tells whether rows were removed. -/
def Playlist.removeRows (row count : Int) (pl : Playlist) : Bool × Playlist :=
  if 0 ≤ row ∧ 0 < count ∧ row + count ≤ pl.rowCount then
    (true, { pl with items := pl.items.take row.toNat ++ pl.items.drop (row + count).toNat })
  else (false, pl)

/-- `Mpris1TrackList::GetLength()`. -/
def Mpris1TrackList.GetLength (self : Mpris1TrackList) : Int :=
  self.player_.playlists.active.rowCount

/-- `Mpris1TrackList::DelTrack(int index)`: the reply sent to the caller and the object
state afterwards.  The method is `void`, drops the result of `removeRows` and has no error
path, so the reply is always the empty success reply. -/
def Mpris1TrackList.DelTrack (index : Int) (self : Mpris1TrackList) :
    Except MprisError Unit × Mpris1TrackList :=
  let active := (self.player_.playlists.active.removeRows index 1).2
  (.ok (), { self with
               player_ := { self.player_ with
                 playlists := { self.player_.playlists with active := active } } })

/-- `Mpris1TrackList::PlaylistChanged`: the emitted signal. -/
def Mpris1TrackList.PlaylistChanged (self : Mpris1TrackList) : List Signal :=
  [.TrackListChange self.GetLength]

/-- A track used as concrete input: a local file with both art references set. -/
def sampleSong : Song :=
  { filename := "/music/a.mp3", PrettyTitle := "A", artist := "B", album := "C",
    length := 200, track := 1, year := 2010, genre := "Rock", disc := 1, comment := "",
    bitrate := 192, samplerate := 44100, bpm := 120, composer := "D",
    art_manual := "/covers/manual.jpg", art_automatic := "/covers/auto.jpg",
    rating := 3 / 5, filetype := .Type_Other 0 }

/-- A playlist item used as concrete input. -/
def sampleItem : PlaylistItem := { options := 0, Metadata := sampleSong }

/-- A player snapshot used as concrete input: two rows, the first one playing. -/
def samplePlayer : Player :=
  { GetState := .Playing, GetCurrentItem := some sampleItem,
    playlists :=
      { active := { items := [sampleItem, sampleItem], current_index := 0, next_index := 1,
                    previous_index := -1, current_item_options := 0 },
        sequence := { repeat_mode := .Repeat_Track, shuffle_mode := .Shuffle_Off } } }

/-- Flag values used as concrete input. -/
def sampleFlags : PlaylistItemFlags := { PauseDisabled := 4, ContainsMultipleTracks := 2 }

/-! ## Lookup lemmas for `QVariantMap` and `AddMetadata` -/

theorem QVariantMap.valueEntries_insertEntries_self (es : List (String × QVariant))
    (key : String) (v : QVariant) :
    QVariantMap.valueEntries (QVariantMap.insertEntries es key v) key = some v := by
  induction es with
  | nil => simp [QVariantMap.insertEntries, QVariantMap.valueEntries]
  | cons e rest ih =>
    obtain ⟨k, x⟩ := e
    by_cases h : k = key
    · simp [QVariantMap.insertEntries, QVariantMap.valueEntries, h]
    · simp [QVariantMap.insertEntries, QVariantMap.valueEntries, h, ih]

theorem QVariantMap.valueEntries_insertEntries_ne (es : List (String × QVariant))
    (key other : String) (v : QVariant) (hne : key ≠ other) :
    QVariantMap.valueEntries (QVariantMap.insertEntries es key v) other
      = QVariantMap.valueEntries es other := by
  induction es with
  | nil => simp [QVariantMap.insertEntries, QVariantMap.valueEntries, hne]
  | cons e rest ih =>
    obtain ⟨k, x⟩ := e
    by_cases h : k = key
    · subst h
      simp [QVariantMap.insertEntries, QVariantMap.valueEntries, hne]
    · by_cases h2 : k = other
      · subst h2
        simp [QVariantMap.insertEntries, QVariantMap.valueEntries, h]
      · simp [QVariantMap.insertEntries, QVariantMap.valueEntries, h, h2, ih]

theorem QVariantMap.value_insert_self (m : QVariantMap) (key : String) (v : QVariant) :
    (m.insert key v).value key = some v :=
  QVariantMap.valueEntries_insertEntries_self m.entries key v

theorem QVariantMap.value_insert_ne (m : QVariantMap) (key other : String) (v : QVariant)
    (hne : key ≠ other) : (m.insert key v).value other = m.value other :=
  QVariantMap.valueEntries_insertEntries_ne m.entries key other v hne

theorem QVariantMap.value_empty (key : String) : QVariantMap.empty.value key = none := rfl

theorem value_AddMetadata_self (keep : QVariant → Bool) (key : String) (v : QVariant)
    (m : QVariantMap) :
    (AddMetadata keep key v m).value key = if keep v then some v else m.value key := by
  unfold AddMetadata
  split
  · exact QVariantMap.value_insert_self m key v
  · rfl

theorem value_AddMetadata_ne (keep : QVariant → Bool) (key other : String) (v : QVariant)
    (m : QVariantMap) (hne : key ≠ other) :
    (AddMetadata keep key v m).value other = m.value other := by
  unfold AddMetadata
  split
  · exact QVariantMap.value_insert_ne m key other v hne
  · rfl

/-! ## `Mpris1Player::GetStatus` -/

/-- C1: for every engine state and every sequence mode `GetStatus` returns the tuple with
play = Stopped for Empty and Idle, Playing for Playing, Paused for Paused; random = 1 iff
the shuffle mode is not `Shuffle_Off` (else 0); repeat = 1 iff the repeat mode is
`Repeat_Track` (else 0); repeat_playlist = 1 iff the repeat mode is one of `Repeat_Track`,
`Repeat_Album`, `Repeat_Playlist` (else 0).  `Repeat_Track` gives repeat = 1 and
repeat_playlist = 1 together, the play field does not depend on the sequence mode, and
the three flags do not depend on the engine state. -/
theorem GetStatus_tuple (self : Mpris1Player) :
    (self.GetStatus.play =
        match self.player_.GetState with
        | .Empty => .Mpris_Stopped
        | .Idle => .Mpris_Stopped
        | .Playing => .Mpris_Playing
        | .Paused => .Mpris_Paused) ∧
    (self.GetStatus.random =
        if self.player_.playlists.sequence.shuffle_mode ≠ .Shuffle_Off then 1 else 0) ∧
    (self.GetStatus.repeat_ =
        if self.player_.playlists.sequence.repeat_mode = .Repeat_Track then 1 else 0) ∧
    (self.GetStatus.repeat_playlist =
        if self.player_.playlists.sequence.repeat_mode ∈
            [PlaylistSequence.RepeatMode.Repeat_Track, .Repeat_Album, .Repeat_Playlist]
        then 1 else 0) ∧
    (self.player_.playlists.sequence.repeat_mode = .Repeat_Track →
        self.GetStatus.repeat_ = 1 ∧ self.GetStatus.repeat_playlist = 1) ∧
    (∀ other : Mpris1Player, other.player_.GetState = self.player_.GetState →
        other.GetStatus.play = self.GetStatus.play) ∧
    (∀ other : Mpris1Player,
        other.player_.playlists.sequence = self.player_.playlists.sequence →
        other.GetStatus.random = self.GetStatus.random ∧
        other.GetStatus.repeat_ = self.GetStatus.repeat_ ∧
        other.GetStatus.repeat_playlist = self.GetStatus.repeat_playlist) := by
  refine ⟨rfl, ?_, rfl, ?_, ?_, ?_, ?_⟩
  · simp only [Mpris1Player.GetStatus]
    split_ifs <;> simp_all +decide
  · simp only [Mpris1Player.GetStatus]
    cases self.player_.playlists.sequence.repeat_mode <;> simp
  · intro h
    simp [Mpris1Player.GetStatus, h]
  · intro other h
    simp [Mpris1Player.GetStatus, h]
  · intro other h
    simp [Mpris1Player.GetStatus, h]

/-! ## `Mpris1Player::GetCaps` -/

/-- The CanPause bit of `GetCaps` as a condition on the snapshot. -/
theorem GetCaps_and_CAN_PAUSE (F : PlaylistItemFlags) (self : Mpris1Player) :
    self.GetCaps F &&& CAN_PAUSE ≠ 0 ↔
      ∃ item, self.player_.GetCurrentItem = some item ∧ self.player_.GetState = .Playing ∧
        item.options &&& F.PauseDisabled = 0 := by
  obtain ⟨⟨state, current, playlists⟩, md⟩ := self
  cases current with
  | none =>
    simp only [Mpris1Player.GetCaps, CAN_PAUSE, CAN_PLAY, CAN_SEEK, CAN_GO_NEXT, CAN_GO_PREV,
      CAN_PROVIDE_METADATA, CAN_HAS_TRACKLIST]
    split_ifs <;> simp +decide
  | some item =>
    simp only [Mpris1Player.GetCaps, CAN_PAUSE, CAN_PLAY, CAN_SEEK, CAN_GO_NEXT, CAN_GO_PREV,
      CAN_PROVIDE_METADATA, CAN_HAS_TRACKLIST]
    split_ifs <;> simp_all +decide

/-- The CanSeek bit of `GetCaps` as a condition on the snapshot. -/
theorem GetCaps_and_CAN_SEEK (F : PlaylistItemFlags) (self : Mpris1Player) :
    self.GetCaps F &&& CAN_SEEK ≠ 0 ↔
      ∃ item, self.player_.GetCurrentItem = some item ∧ self.player_.GetState ≠ .Empty ∧
        item.Metadata.filetype ≠ .Type_Stream := by
  obtain ⟨⟨state, current, playlists⟩, md⟩ := self
  cases current with
  | none =>
    simp only [Mpris1Player.GetCaps, CAN_PAUSE, CAN_PLAY, CAN_SEEK, CAN_GO_NEXT, CAN_GO_PREV,
      CAN_PROVIDE_METADATA, CAN_HAS_TRACKLIST]
    split_ifs <;> simp +decide
  | some item =>
    simp only [Mpris1Player.GetCaps, CAN_PAUSE, CAN_PLAY, CAN_SEEK, CAN_GO_NEXT, CAN_GO_PREV,
      CAN_PROVIDE_METADATA, CAN_HAS_TRACKLIST]
    split_ifs <;> simp_all +decide

/-- The CanPlay bit of `GetCaps` as a condition on the snapshot. -/
theorem GetCaps_and_CAN_PLAY (F : PlaylistItemFlags) (self : Mpris1Player) :
    self.GetCaps F &&& CAN_PLAY ≠ 0 ↔ self.player_.playlists.active.rowCount ≠ 0 := by
  obtain ⟨⟨state, current, playlists⟩, md⟩ := self
  cases current with
  | none =>
    simp only [Mpris1Player.GetCaps, CAN_PAUSE, CAN_PLAY, CAN_SEEK, CAN_GO_NEXT, CAN_GO_PREV,
      CAN_PROVIDE_METADATA, CAN_HAS_TRACKLIST]
    split_ifs <;> simp_all +decide
  | some item =>
    simp only [Mpris1Player.GetCaps, CAN_PAUSE, CAN_PLAY, CAN_SEEK, CAN_GO_NEXT, CAN_GO_PREV,
      CAN_PROVIDE_METADATA, CAN_HAS_TRACKLIST]
    split_ifs <;> simp_all +decide

/-- The CanGoNext bit of `GetCaps` as a condition on the snapshot. -/
theorem GetCaps_and_CAN_GO_NEXT (F : PlaylistItemFlags) (self : Mpris1Player) :
    self.GetCaps F &&& CAN_GO_NEXT ≠ 0 ↔
      (self.player_.playlists.active.next_index ≠ -1 ∨
        self.player_.playlists.active.current_item_options &&& F.ContainsMultipleTracks ≠ 0) := by
  obtain ⟨⟨state, current, playlists⟩, md⟩ := self
  cases current with
  | none =>
    simp only [Mpris1Player.GetCaps, CAN_PAUSE, CAN_PLAY, CAN_SEEK, CAN_GO_NEXT, CAN_GO_PREV,
      CAN_PROVIDE_METADATA, CAN_HAS_TRACKLIST]
    split_ifs <;> simp_all +decide
  | some item =>
    simp only [Mpris1Player.GetCaps, CAN_PAUSE, CAN_PLAY, CAN_SEEK, CAN_GO_NEXT, CAN_GO_PREV,
      CAN_PROVIDE_METADATA, CAN_HAS_TRACKLIST]
    split_ifs <;> simp_all +decide

/-- The CanGoPrevious bit of `GetCaps` as a condition on the snapshot. -/
theorem GetCaps_and_CAN_GO_PREV (F : PlaylistItemFlags) (self : Mpris1Player) :
    self.GetCaps F &&& CAN_GO_PREV ≠ 0 ↔ self.player_.playlists.active.previous_index ≠ -1 := by
  obtain ⟨⟨state, current, playlists⟩, md⟩ := self
  cases current with
  | none =>
    simp only [Mpris1Player.GetCaps, CAN_PAUSE, CAN_PLAY, CAN_SEEK, CAN_GO_NEXT, CAN_GO_PREV,
      CAN_PROVIDE_METADATA, CAN_HAS_TRACKLIST]
    split_ifs <;> simp_all +decide
  | some item =>
    simp only [Mpris1Player.GetCaps, CAN_PAUSE, CAN_PLAY, CAN_SEEK, CAN_GO_NEXT, CAN_GO_PREV,
      CAN_PROVIDE_METADATA, CAN_HAS_TRACKLIST]
    split_ifs <;> simp_all +decide

/-- C2: the mask returned by `GetCaps` has the CanPause bit set if and only if a current
item exists, the engine state is Playing and the item's options do not include
PauseDisabled; without a current item the bit is clear for every engine state and every
playlist content. -/
theorem GetCaps_CanPause (F : PlaylistItemFlags) (self : Mpris1Player) :
    (self.GetCaps F &&& CAN_PAUSE ≠ 0 ↔
      ∃ item, self.player_.GetCurrentItem = some item ∧ self.player_.GetState = .Playing ∧
        item.options &&& F.PauseDisabled = 0) ∧
    (self.player_.GetCurrentItem = none → self.GetCaps F &&& CAN_PAUSE = 0) := by
  refine ⟨GetCaps_and_CAN_PAUSE F self, fun hnone => ?_⟩
  by_contra hset
  obtain ⟨item, hitem, _⟩ := (GetCaps_and_CAN_PAUSE F self).mp hset
  rw [hnone] at hitem
  exact Option.noConfusion hitem

/-- C3: the mask returned by `GetCaps` has the CanSeek bit set if and only if a current
item exists, the engine state is not Empty and the current item's file type is not
`Type_Stream`; the bit is the same for any two snapshots (and any flag values) that agree
on the engine state and the current item's file type, whatever their row counts,
next/previous indices and item options. -/
theorem GetCaps_CanSeek (F : PlaylistItemFlags) (self : Mpris1Player) :
    (self.GetCaps F &&& CAN_SEEK ≠ 0 ↔
      ∃ item, self.player_.GetCurrentItem = some item ∧ self.player_.GetState ≠ .Empty ∧
        item.Metadata.filetype ≠ .Type_Stream) ∧
    (∀ (F2 : PlaylistItemFlags) (other : Mpris1Player),
      other.player_.GetState = self.player_.GetState →
      other.player_.GetCurrentItem.map (fun i => i.Metadata.filetype)
        = self.player_.GetCurrentItem.map (fun i => i.Metadata.filetype) →
      (other.GetCaps F2 &&& CAN_SEEK ≠ 0 ↔ self.GetCaps F &&& CAN_SEEK ≠ 0)) := by
  refine ⟨GetCaps_and_CAN_SEEK F self, fun F2 other hstate hitem => ?_⟩
  rw [GetCaps_and_CAN_SEEK, GetCaps_and_CAN_SEEK, hstate]
  cases ho : other.player_.GetCurrentItem <;> cases hs : self.player_.GetCurrentItem <;>
    simp_all

/-- C4: in the mask returned by `GetCaps`, CanPlay is set iff the active playlist has at
least one row, CanGoNext is set iff the next index is not -1 or the active playlist's
current item options include ContainsMultipleTracks, and CanGoPrevious is set iff the
previous index is not -1.  The three bits are the same for any two snapshots with the
same active playlist, whatever their engine state and current item; so CanGoNext is set
with engine state Empty and no current item whenever a next index exists. -/
theorem GetCaps_CanPlay_CanGoNext_CanGoPrevious (F : PlaylistItemFlags) (self : Mpris1Player) :
    (self.GetCaps F &&& CAN_PLAY ≠ 0 ↔ 1 ≤ self.player_.playlists.active.rowCount) ∧
    (self.GetCaps F &&& CAN_GO_NEXT ≠ 0 ↔
      (self.player_.playlists.active.next_index ≠ -1 ∨
        self.player_.playlists.active.current_item_options &&& F.ContainsMultipleTracks ≠ 0)) ∧
    (self.GetCaps F &&& CAN_GO_PREV ≠ 0 ↔ self.player_.playlists.active.previous_index ≠ -1) ∧
    (∀ other : Mpris1Player,
      other.player_.playlists.active = self.player_.playlists.active →
      (other.GetCaps F &&& CAN_PLAY ≠ 0 ↔ self.GetCaps F &&& CAN_PLAY ≠ 0) ∧
      (other.GetCaps F &&& CAN_GO_NEXT ≠ 0 ↔ self.GetCaps F &&& CAN_GO_NEXT ≠ 0) ∧
      (other.GetCaps F &&& CAN_GO_PREV ≠ 0 ↔ self.GetCaps F &&& CAN_GO_PREV ≠ 0)) ∧
    (self.player_.GetState = .Empty → self.player_.GetCurrentItem = none →
      self.player_.playlists.active.next_index ≠ -1 → self.GetCaps F &&& CAN_GO_NEXT ≠ 0) := by
  refine ⟨?_, GetCaps_and_CAN_GO_NEXT F self, GetCaps_and_CAN_GO_PREV F self, ?_, ?_⟩
  · rw [GetCaps_and_CAN_PLAY]
    have hnn : (0 : Int) ≤ self.player_.playlists.active.rowCount := by
      simp [Playlist.rowCount]
    omega
  · intro other h
    simp [GetCaps_and_CAN_PLAY, GetCaps_and_CAN_GO_NEXT, GetCaps_and_CAN_GO_PREV, h]
  · intro _ _ hnext
    exact (GetCaps_and_CAN_GO_NEXT F self).mpr (Or.inl hnext)

/-! ## `Mpris1::GetMetadata` -/

/-- The entry stored under "artUrl" by the mapper. -/
theorem GetMetadata_value_artUrl (keep : QVariant → Bool) (song : Song) :
    (Mpris1.GetMetadata keep song).value "artUrl" =
      if keep (.str (if song.art_manual = "" then song.art_automatic else song.art_manual))
      then some (.str (if song.art_manual = "" then song.art_automatic else song.art_manual))
      else none := by
  unfold Mpris1.GetMetadata
  simp only []
  split_ifs <;>
    simp_all +decide [value_AddMetadata_self, value_AddMetadata_ne, QVariantMap.value_empty]

/-- The mapper stores nothing under the lower-case key "arturl". -/
theorem GetMetadata_value_arturl (keep : QVariant → Bool) (song : Song) :
    (Mpris1.GetMetadata keep song).value "arturl" = none := by
  unfold Mpris1.GetMetadata
  simp only []
  split_ifs <;>
    simp +decide [value_AddMetadata_ne, QVariantMap.value_empty]

/-- C8: the value that `Mpris1::GetMetadata` supplies for the artwork key "artUrl" is the
manual art reference whenever that is non-empty (whatever the automatic one is) and the
automatic art reference when the manual one is empty; two tracks with the same two art
references get the same artwork entry, whatever their other fields. -/
theorem GetMetadata_artUrl (keep : QVariant → Bool) (song : Song) :
    (song.art_manual ≠ "" →
      ∀ v, (Mpris1.GetMetadata keep song).value "artUrl" = some v → v = .str song.art_manual) ∧
    (song.art_manual ≠ "" → keep (.str song.art_manual) = true →
      (Mpris1.GetMetadata keep song).value "artUrl" = some (.str song.art_manual)) ∧
    (song.art_manual = "" →
      ∀ v, (Mpris1.GetMetadata keep song).value "artUrl" = some v →
        v = .str song.art_automatic) ∧
    (song.art_manual = "" → keep (.str song.art_automatic) = true →
      (Mpris1.GetMetadata keep song).value "artUrl" = some (.str song.art_automatic)) ∧
    (∀ other : Song, other.art_manual = song.art_manual →
      other.art_automatic = song.art_automatic →
      (Mpris1.GetMetadata keep other).value "artUrl"
        = (Mpris1.GetMetadata keep song).value "artUrl") := by
  refine ⟨?_, ?_, ?_, ?_, ?_⟩
  · intro h v hv
    rw [GetMetadata_value_artUrl, if_neg h] at hv
    split_ifs at hv
    exact (Option.some.inj hv).symm
  · intro h hk
    rw [GetMetadata_value_artUrl, if_neg h, if_pos hk]
  · intro h v hv
    rw [GetMetadata_value_artUrl, if_pos h] at hv
    split_ifs at hv
    exact (Option.some.inj hv).symm
  · intro h hk
    rw [GetMetadata_value_artUrl, if_pos h, if_pos hk]
  · intro other h1 h2
    rw [GetMetadata_value_artUrl, GetMetadata_value_artUrl, h1, h2]

/-- C8 witness: with both art references non-empty the manual one is the artwork entry. -/
theorem GetMetadata_artUrl_witness :
    sampleSong.art_manual ≠ "" ∧ sampleSong.art_automatic ≠ "" ∧
    (Mpris1.GetMetadata keepAll sampleSong).value "artUrl" = some (.str "/covers/manual.jpg") :=
  ⟨by decide, by decide, (GetMetadata_artUrl keepAll sampleSong).2.1 (by decide) rfl⟩

/-! ## `Mpris1Player::CurrentSongChanged` -/

/-- The dictionary cached by `CurrentSongChanged`. -/
theorem CurrentSongChanged_last_metadata (keep : QVariant → Bool) (F : PlaylistItemFlags)
    (song : Song) (art_uri : String) (self : Mpris1Player) :
    (self.CurrentSongChanged keep F song art_uri).1.last_metadata_ =
      if art_uri = "" then Mpris1.GetMetadata keep song
      else AddMetadata keep "arturl" (.str art_uri) (Mpris1.GetMetadata keep song) := by
  unfold Mpris1Player.CurrentSongChanged
  by_cases h : art_uri = "" <;> simp [h]

/-- `CurrentSongChanged` leaves the observed player untouched. -/
theorem CurrentSongChanged_player (keep : QVariant → Bool) (F : PlaylistItemFlags)
    (song : Song) (art_uri : String) (self : Mpris1Player) :
    (self.CurrentSongChanged keep F song art_uri).1.player_ = self.player_ := by
  unfold Mpris1Player.CurrentSongChanged
  by_cases h : art_uri = "" <;> simp [h]

/-- C5: handling a current-track-changed event emits exactly the three signals
TrackChange, StatusChange, CapsChange, in this order, whatever the engine state and the
playlist are; the dictionary carried by TrackChange is the one stored as last metadata, so
`GetMetadata()` after the event returns it, and the StatusChange and CapsChange payloads are
`GetStatus()` and `GetCaps()` of the snapshot, which the handler does not change. -/
theorem CurrentSongChanged_signals (keep : QVariant → Bool) (F : PlaylistItemFlags)
    (song : Song) (art_uri : String) (self : Mpris1Player) :
    (self.CurrentSongChanged keep F song art_uri).2 =
      [Signal.TrackChange (self.CurrentSongChanged keep F song art_uri).1.GetMetadata,
       Signal.StatusChange (self.CurrentSongChanged keep F song art_uri).1.GetStatus,
       Signal.CapsChange ((self.CurrentSongChanged keep F song art_uri).1.GetCaps F)] ∧
    (self.CurrentSongChanged keep F song art_uri).1.GetMetadata =
      (self.CurrentSongChanged keep F song art_uri).1.last_metadata_ ∧
    (self.CurrentSongChanged keep F song art_uri).1.player_ = self.player_ ∧
    (self.CurrentSongChanged keep F song art_uri).1.GetStatus = self.GetStatus ∧
    (self.CurrentSongChanged keep F song art_uri).1.GetCaps F = self.GetCaps F := by
  refine ⟨?_, rfl, CurrentSongChanged_player keep F song art_uri self, ?_, ?_⟩
  · unfold Mpris1Player.CurrentSongChanged
    by_cases h : art_uri = "" <;> simp [h, Mpris1Player.GetMetadata]
  · simp only [Mpris1Player.GetStatus, CurrentSongChanged_player]
  · simp only [Mpris1Player.GetCaps, CurrentSongChanged_player]

/-- C6 (the code at the failing input): after a track change for a track whose manual art
is "/covers/manual.jpg", with artwork URI "file:///tmp/cover.jpg", the cached dictionary
still holds the track's own art under "artUrl" and holds the URI under the different key
"arturl": two artwork entries, nothing overwritten. -/
theorem CurrentSongChanged_two_artwork_keys :
    ((Mpris1Player.CurrentSongChanged keepAll sampleFlags sampleSong "file:///tmp/cover.jpg"
        ⟨samplePlayer, QVariantMap.empty⟩).1.GetMetadata.value "artUrl"
      = some (.str "/covers/manual.jpg")) ∧
    ((Mpris1Player.CurrentSongChanged keepAll sampleFlags sampleSong "file:///tmp/cover.jpg"
        ⟨samplePlayer, QVariantMap.empty⟩).1.GetMetadata.value "arturl"
      = some (.str "file:///tmp/cover.jpg")) ∧
    ((Mpris1Player.CurrentSongChanged keepAll sampleFlags sampleSong "file:///tmp/cover.jpg"
        ⟨samplePlayer, QVariantMap.empty⟩).1.GetMetadata.keys
      = ["location", "title", "artist", "album", "time", "mtime", "tracknumber", "year",
         "genre", "disc", "comment", "audio-bitrate", "audio-samplerate", "bpm", "composer",
         "artUrl", "rating", "arturl"]) := by
  refine ⟨?_, ?_, ?_⟩
  · simp only [Mpris1Player.GetMetadata]
    rw [CurrentSongChanged_last_metadata, if_neg (by decide),
      value_AddMetadata_ne _ _ _ _ _ (by decide), GetMetadata_value_artUrl]
    simp [keepAll, sampleSong]
  · simp only [Mpris1Player.GetMetadata]
    rw [CurrentSongChanged_last_metadata, if_neg (by decide), value_AddMetadata_self]
    simp [keepAll]
  · simp only [Mpris1Player.GetMetadata]
    rw [CurrentSongChanged_last_metadata, if_neg (by decide)]
    have hr : ¬ ((3 : ℚ) / 5 = -1) := by norm_num
    simp +decide [hr, Mpris1.GetMetadata, AddMetadata, keepAll, QVariantMap.keys, QVariantMap.insert,
      QVariantMap.insertEntries, QVariantMap.empty, sampleSong]

/-! ## `Mpris1Player::PositionSet` -/

/-- C9: for every integer `pos`, `PositionSet(pos)` forwards exactly one seek to the player,
whose argument is `pos` divided by 1000 truncated toward zero (its thousandfold is no
further from zero than `pos` and less than 1000 away from it), and leaves the object as it
is; `PositionSet(5000)` seeks to 5, `PositionSet(999)` to 0 and `PositionSet(-1500)` to -1. -/
theorem PositionSet_seek (pos : Int) (self : Mpris1Player) :
    (∃ q : Int, (self.PositionSet pos).2 = [PlayerCall.Seek q] ∧ q = Int.tdiv pos 1000 ∧
      |q * 1000| ≤ |pos| ∧ |pos - q * 1000| < 1000) ∧
    (self.PositionSet pos).1 = self ∧
    (self.PositionSet 5000).2 = [PlayerCall.Seek 5] ∧
    (self.PositionSet 999).2 = [PlayerCall.Seek 0] ∧
    (self.PositionSet (-1500)).2 = [PlayerCall.Seek (-1)] := by
  refine ⟨⟨Int.tdiv pos 1000, rfl, rfl, ?_, ?_⟩, rfl, ?_, ?_, ?_⟩
  · rcases le_total 0 pos with h | h
    · have h1 : Int.tdiv pos 1000 = pos / 1000 := Int.tdiv_eq_ediv h (by norm_num)
      rw [h1, abs_of_nonneg h, abs_of_nonneg (by omega)]
      omega
    · obtain ⟨n, rfl⟩ : ∃ n : Int, pos = -n := ⟨-pos, by omega⟩
      have hn : 0 ≤ n := by omega
      have h1 : Int.tdiv (-n) 1000 = -(n / 1000) := by
        rw [Int.neg_tdiv, Int.tdiv_eq_ediv hn (by norm_num)]
      rw [h1, abs_of_nonpos (by omega), abs_of_nonpos (by omega)]
      omega
  · rcases le_total 0 pos with h | h
    · have h1 : Int.tdiv pos 1000 = pos / 1000 := Int.tdiv_eq_ediv h (by norm_num)
      rw [h1, abs_of_nonneg (by omega)]
      omega
    · obtain ⟨n, rfl⟩ : ∃ n : Int, pos = -n := ⟨-pos, by omega⟩
      have hn : 0 ≤ n := by omega
      have h1 : Int.tdiv (-n) 1000 = -(n / 1000) := by
        rw [Int.neg_tdiv, Int.tdiv_eq_ediv hn (by norm_num)]
      rw [h1, abs_of_nonpos (by omega)]
      omega
  · simp [Mpris1Player.PositionSet]; decide
  · simp [Mpris1Player.PositionSet]; decide
  · simp [Mpris1Player.PositionSet]; decide

/-! ## `Mpris1TrackList::DelTrack` -/

/-- C10 (as amended): `DelTrack(index)` reports no error for any index, the reply is always
the empty success reply; for every index >= `GetLength()` it leaves the object, and so the
active playlist (same rows, same order, same `GetLength()`), unchanged; for every index
with 0 <= index < `GetLength()` it removes exactly the one row at that index. -/
theorem DelTrack_effect (index : Int) (self : Mpris1TrackList) :
    (self.DelTrack index).1 = Except.ok () ∧
    (self.GetLength ≤ index →
      (self.DelTrack index).2 = self ∧
      (self.DelTrack index).2.GetLength = self.GetLength) ∧
    (0 ≤ index → index < self.GetLength →
      (self.DelTrack index).2.player_.playlists.active.items
        = self.player_.playlists.active.items.eraseIdx index.toNat ∧
      (self.DelTrack index).2.player_.playlists.active.items
        = self.player_.playlists.active.items.take index.toNat
            ++ self.player_.playlists.active.items.drop (index.toNat + 1) ∧
      (self.DelTrack index).2.GetLength = self.GetLength - 1) := by
  refine ⟨rfl, ?_, ?_⟩
  · intro h
    have hno : ¬ (0 ≤ index ∧ (0 : Int) < 1 ∧ index + 1 ≤ self.player_.playlists.active.rowCount) := by
      simp only [Mpris1TrackList.GetLength] at h
      omega
    have hself : (self.DelTrack index).2 = self := by
      simp only [Mpris1TrackList.DelTrack, Playlist.removeRows, if_neg hno]
    exact ⟨hself, by rw [hself]⟩
  · intro h0 hlt
    have hyes : 0 ≤ index ∧ (0 : Int) < 1 ∧ index + 1 ≤ self.player_.playlists.active.rowCount := by
      simp only [Mpris1TrackList.GetLength] at hlt
      omega
    have htn : (index + 1).toNat = index.toNat + 1 := by omega
    have hitems : (self.DelTrack index).2.player_.playlists.active.items
        = self.player_.playlists.active.items.take index.toNat
            ++ self.player_.playlists.active.items.drop (index.toNat + 1) := by
      simp only [Mpris1TrackList.DelTrack, Playlist.removeRows, if_pos hyes, htn]
    have hlen : index.toNat < self.player_.playlists.active.items.length := by
      simp only [Mpris1TrackList.GetLength, Playlist.rowCount] at hlt
      omega
    refine ⟨?_, hitems, ?_⟩
    · rw [hitems, List.eraseIdx_eq_take_drop_succ]
    · simp only [Mpris1TrackList.GetLength, Playlist.rowCount, hitems, List.length_append,
        List.length_take, List.length_drop]
      omega

/-- C10 (the claim as stated fails): deleting at index 2 of a two-row playlist, an index
>= `GetLength()`, ends with the empty success reply, not with an InvalidIndex error. -/
theorem DelTrack_out_of_range_no_error :
    Mpris1TrackList.GetLength ⟨samplePlayer⟩ ≤ 2 ∧
    (Mpris1TrackList.DelTrack 2 ⟨samplePlayer⟩).1 = Except.ok () ∧
    (Mpris1TrackList.DelTrack 2 ⟨samplePlayer⟩).1 ≠ Except.error MprisError.InvalidIndex := by
  refine ⟨by decide, rfl, ?_⟩
  intro h
  cases h

/-- C10 witness: index 2 of the two-row playlist changes nothing, index 0 leaves the one
other row. -/
theorem DelTrack_effect_witness :
    (Mpris1TrackList.DelTrack 2 ⟨samplePlayer⟩).2 = ⟨samplePlayer⟩ ∧
    (Mpris1TrackList.DelTrack 0 ⟨samplePlayer⟩).2.GetLength
      = Mpris1TrackList.GetLength ⟨samplePlayer⟩ - 1 :=
  ⟨((DelTrack_effect 2 ⟨samplePlayer⟩).2.1 (by decide)).1,
   ((DelTrack_effect 0 ⟨samplePlayer⟩).2.2 (by decide) (by decide)).2.2⟩

/-! ## Concrete instances -/

/-- C1 at the sample snapshot: Playing with `Repeat_Track` and `Shuffle_Off` gives
(Playing, 0, 1, 1). -/
theorem GetStatus_tuple_witness :
    (Mpris1Player.GetStatus ⟨samplePlayer, QVariantMap.empty⟩).repeat_ = 1 ∧
    (Mpris1Player.GetStatus ⟨samplePlayer, QVariantMap.empty⟩).repeat_playlist = 1 :=
  (GetStatus_tuple ⟨samplePlayer, QVariantMap.empty⟩).2.2.2.2.1 rfl

/-- C2 at the sample snapshot: playing an item that allows pausing sets CanPause. -/
theorem GetCaps_CanPause_witness :
    Mpris1Player.GetCaps sampleFlags ⟨samplePlayer, QVariantMap.empty⟩ &&& CAN_PAUSE ≠ 0 :=
  (GetCaps_CanPause sampleFlags ⟨samplePlayer, QVariantMap.empty⟩).1.mpr
    ⟨sampleItem, rfl, rfl, by decide⟩

/-- C3 at the sample snapshot: playing a local file sets CanSeek. -/
theorem GetCaps_CanSeek_witness :
    Mpris1Player.GetCaps sampleFlags ⟨samplePlayer, QVariantMap.empty⟩ &&& CAN_SEEK ≠ 0 :=
  (GetCaps_CanSeek sampleFlags ⟨samplePlayer, QVariantMap.empty⟩).1.mpr
    ⟨sampleItem, rfl, by decide, by decide⟩

/-- C4 with engine state Empty and no current item: a next index still sets CanGoNext. -/
theorem GetCaps_CanGoNext_witness :
    Mpris1Player.GetCaps sampleFlags
      ⟨{ samplePlayer with GetState := .Empty, GetCurrentItem := none }, QVariantMap.empty⟩
        &&& CAN_GO_NEXT ≠ 0 :=
  (GetCaps_CanPlay_CanGoNext_CanGoPrevious sampleFlags
    ⟨{ samplePlayer with GetState := .Empty, GetCurrentItem := none }, QVariantMap.empty⟩).2.2.2.2
    rfl rfl (by decide)
